import Mathlib

/-!
Verification of the GHL reporting dashboard's ingestion and aggregation code.

The JavaScript sources are shallowly embedded:
* JS objects with optional fields become structures with `Option` fields;
  JS string truthiness (`""` is falsy) is modelled explicitly at each use.
* JS numbers appearing in the aggregation formulas are modelled as `ℚ`
  (all quantities involved are exact counts and exact divisions; IEEE-754
  rounding is outside the model).
* A JS object used as a dictionary becomes an association list where
  assignment updates an existing key in place (preserving insertion order)
  and otherwise appends — the semantics of string-keyed JS objects.
* Date parsing (`new Date`, date-fns `parseISO`) is an external library;
  it is a parameter `parse : String → Option Int` mapping a string to an
  epoch-millisecond instant, `none` standing for an invalid date (NaN).

Sources embedded: src/lib/ghl.js, src/app/api/summary/route.js,
src/app/api/opportunities/route.js, the conversations and contacts route
handlers and the formatter helpers from src/unnamed.
-/

namespace GHL

/-! ### JS dictionary semantics (string-keyed object used as a map) -/

/-- Reading `obj[k]`: the value stored at the first (hence only) binding
of `k`, or `undefined` (`none`) when absent. -/
def objGet {β : Type} : List (String × β) → String → Option β
  | [], _ => none
  | (k', v) :: rest, k => if k' = k then some v else objGet rest k

/-- Writing `obj[k] = v`: replace an existing binding in place (JS objects
keep a key's original insertion position on overwrite), else append. -/
def objSet {β : Type} : List (String × β) → String → β → List (String × β)
  | [], k, v => [(k, v)]
  | (k', v') :: rest, k, v =>
    if k' = k then (k, v) :: rest else (k', v') :: objSet rest k v

/-! ### Data model (entities as fetched from the API) -/

structure Contact where
  id : Option String
  firstName : Option String
  lastName : Option String
  email : Option String
  phone : Option String
  source : Option String
  dateAdded : Option String
  tags : Option (List String)
deriving DecidableEq

structure Opportunity where
  id : Option String
  monetaryValue : Option ℚ
  status : Option String
  pipelineStageId : Option String
deriving DecidableEq

structure Stage where
  id : String
  name : String
deriving DecidableEq

structure Pipeline where
  stages : Option (List Stage)
deriving DecidableEq

structure Conversation where
  id : Option String
  status : Option String
  unreadCount : Option Int
  lastMessageType : Option String
deriving DecidableEq

/-! ### Formatter helpers (src/unnamed/part_000, lib/formatters) -/

/-- `isWithinDays(isoString, days)`:
`if (!isoString) return false` covers `undefined`, `null` and the empty
string (all falsy); `parseISO` failure yields an invalid date on which
`isAfter` is `false` (the `catch` never fires in practice), and
`subDays(new Date(), days)` is modelled as `now` minus a fixed
86400000 ms per day. `isAfter` is a strict comparison. -/
def isWithinDays (parse : String → Option Int) (now : Int)
    (isoString : Option String) (days : Nat) : Bool :=
  match isoString with
  | none => false
  | some s =>
    if s = "" then false
    else
      match parse s with
      | some d => decide (now - (days : Int) * 86400000 < d)
      | none => false

/-- The grouping key used by `groupBy(contacts, "source")`:
`item[key] || "Unknown"` — a missing or empty source is the literal
group `"Unknown"`. -/
def sourceKey (c : Contact) : String :=
  match c.source with
  | some s => if s = "" then "Unknown" else s
  | none => "Unknown"

/-- One step of the `groupBy` reduce: push `c` onto the group keyed `k`
(JS object insertion semantics: existing group keeps its position). -/
def pushGroup : List (String × List Contact) → String → Contact →
    List (String × List Contact)
  | [], k, c => [(k, [c])]
  | (k', l) :: rest, k, c =>
    if k' = k then (k', l ++ [c]) :: rest else (k', l) :: pushGroup rest k c

/-- `groupBy(contacts, "source")` from the formatters module. -/
def groupBySource (cs : List Contact) : List (String × List Contact) :=
  cs.foldl (fun gs c => pushGroup gs (sourceKey c) c) []

/-- `Object.entries(bySource).map(([name, items]) => ({name, value: items.length}))` -/
def sourceBreakdown (cs : List Contact) : List (String × Nat) :=
  (groupBySource cs).map (fun p => (p.1, p.2.length))

/-! ### Recent-contacts projection (summary route lines 44-55) -/

/-- `new Date(c.dateAdded)` as epoch milliseconds; an absent field or an
unparseable string is an invalid date (NaN), modelled `none`. -/
def dateMs (parse : String → Option Int) (c : Contact) : Option Int :=
  c.dateAdded.bind parse

/-- The sort comparator `(a, b) => new Date(b.dateAdded) - new Date(a.dateAdded)`;
`none` is a NaN result (either date invalid). -/
def cmpDateDesc (parse : String → Option Int) (a b : Contact) : Option Int :=
  match dateMs parse b, dateMs parse a with
  | some db, some da => some (db - da)
  | _, _ => none

/-- `Array.prototype.sort` keeps `a` no later than `b` when the comparator
does not return a positive number; a NaN comparator result is not
positive either, so the engine leaves such a pair in its current
relative order. -/
def jsLeDesc (parse : String → Option Int) (a b : Contact) : Bool :=
  match cmpDateDesc parse a b with
  | some v => decide (v ≤ 0)
  | none => true

/-- Stable insertion of `x` into `l` before the first element it may
precede. -/
def insertBy {α : Type} (le : α → α → Bool) (x : α) : List α → List α
  | [] => [x]
  | y :: l => if le x y then x :: y :: l else y :: insertBy le x l

/-- `Array.prototype.sort` is stable (ES2019); embedded as a stable
insertion sort over the boolean "may precede" relation. -/
def sortBy {α : Type} (le : α → α → Bool) : List α → List α
  | [] => []
  | x :: l => insertBy le x (sortBy le l)

structure DisplayContact where
  id : Option String
  name : String
  email : String
  phone : String
  source : String
  dateAdded : Option String
  tags : List String
deriving DecidableEq

/-- JS `v || d` on an optional string: `undefined` and `""` are falsy. -/
def jsOrPlaceholder (v : Option String) (d : String) : String :=
  match v with
  | some s => if s = "" then d else s
  | none => d

/-- `String.prototype.trim`: drop whitespace from both ends (stated over
the character list so that it evaluates by structural recursion). -/
def jsTrim (s : String) : String :=
  ⟨((s.data.dropWhile (fun ch => ch.isWhitespace)).reverse.dropWhile
      (fun ch => ch.isWhitespace)).reverse⟩

/-- The per-contact projection of the recent-contacts table:
name is `` `${firstName || ""} ${lastName || ""}`.trim() || "Unknown" ``,
email and phone fall back to `"N/A"`, source to `"Unknown"`,
tags to `[]`. -/
def projectContact (c : Contact) : DisplayContact :=
  ⟨c.id,
   (let n := jsTrim ((c.firstName.getD "") ++ " " ++ (c.lastName.getD ""))
    if n = "" then "Unknown" else n),
   jsOrPlaceholder c.email "N/A",
   jsOrPlaceholder c.phone "N/A",
   jsOrPlaceholder c.source "Unknown",
   c.dateAdded,
   c.tags.getD []⟩

/-- `contacts.sort(cmp).slice(0, 10).map(project)` (summary route and the
contacts route share this code verbatim). -/
def recentContacts (parse : String → Option Int) (cs : List Contact) :
    List DisplayContact :=
  ((sortBy (jsLeDesc parse) cs).take 10).map projectContact

/-- Modelled from the spec's words for comparison: descending by
`dateAdded` with an unparseable date ordered as the earliest instant. -/
def specLeDesc (parse : String → Option Int) (a b : Contact) : Bool :=
  match dateMs parse a, dateMs parse b with
  | some da, some db => decide (db ≤ da)
  | some _, none => true
  | none, some _ => false
  | none, none => true

/-- Modelled from the spec's words: sort descending (unparseable
earliest, hence last), take the first 10, project. -/
def specRecentContacts (parse : String → Option Int) (cs : List Contact) :
    List DisplayContact :=
  ((sortBy (specLeDesc parse) cs).take 10).map projectContact

/-! ### Opportunity metrics (both route handlers) -/

/-- `stageMap[s.id] = s.name` over every stage of every pipeline
(`p.stages || []` normalises an absent stage list). -/
def stageMap (ps : List Pipeline) : List (String × String) :=
  ps.foldl (fun m p => (p.stages.getD []).foldl (fun m s => objSet m s.id s.name) m) []

/-- `stageMap[opp.pipelineStageId]` — an absent stage id indexes the map
at a key that is not present, yielding `undefined`. -/
def stageLookup (m : List (String × String)) (sid : Option String) :
    Option String :=
  sid.bind (objGet m)

/-- The raw-id fallback `opp.pipelineStageId || "Unknown"`. -/
def rawStageFallback (sid : Option String) : String :=
  match sid with
  | some i => if i = "" then "Unknown" else i
  | none => "Unknown"

/-- Summary route resolution: `stageMap[opp.pipelineStageId] || "Unknown"`. -/
def resolveStageSummary (m : List (String × String)) (sid : Option String) :
    String :=
  match stageLookup m sid with
  | some n => if n = "" then "Unknown" else n
  | none => "Unknown"

/-- Opportunities route resolution:
`stageMap[opp.pipelineStageId] || opp.pipelineStageId || "Unknown"`. -/
def resolveStageOpps (m : List (String × String)) (sid : Option String) :
    String :=
  match stageLookup m sid with
  | some n => if n = "" then rawStageFallback sid else n
  | none => rawStageFallback sid

/-- `counts[name] = (counts[name] || 0) + 1`. -/
def bump (m : List (String × Nat)) (k : String) : List (String × Nat) :=
  objSet m k ((objGet m k).getD 0 + 1)

/-- The summary route's `stageCounts` object (one count per resolved name). -/
def stageCounts (m : List (String × String)) (os : List Opportunity) :
    List (String × Nat) :=
  os.foldl (fun acc o => bump acc (resolveStageSummary m o.pipelineStageId)) []

/-- The opportunities route's `stageCount` object. -/
def stageCountOpps (m : List (String × String)) (os : List Opportunity) :
    List (String × Nat) :=
  os.foldl (fun acc o => bump acc (resolveStageOpps m o.pipelineStageId)) []

/-- Reading a count back out of the object (`counts[g] || 0`). -/
def getCount (m : List (String × Nat)) (k : String) : Nat :=
  (objGet m k).getD 0

/-- `opportunities.reduce((sum, o) => sum + (o.monetaryValue || 0), 0)`. -/
def totalPipelineValue (os : List Opportunity) : ℚ :=
  os.foldl (fun s o => s + o.monetaryValue.getD 0) 0

/-- `opportunities.filter(o => o.status === "won").length`. -/
def wonCount (os : List Opportunity) : Nat :=
  (os.filter (fun o => decide (o.status = some "won"))).length

/-- `opportunities.filter(o => o.status === "lost").length`. -/
def lostCount (os : List Opportunity) : Nat :=
  (os.filter (fun o => decide (o.status = some "lost"))).length

/-- `closedTotal > 0 ? wonCount / closedTotal : 0`. -/
def winRate (os : List Opportunity) : ℚ :=
  if 0 < wonCount os + lostCount os then
    (wonCount os : ℚ) / ((wonCount os : ℚ) + (lostCount os : ℚ))
  else 0

/-- `o.monetaryValue > 0` — `undefined > 0` is `false` in JS. -/
def jsPosValue (o : Opportunity) : Bool :=
  match o.monetaryValue with
  | some v => decide (0 < v)
  | none => false

/-- `opportunities.filter(o => o.monetaryValue > 0)`. -/
def withValue (os : List Opportunity) : List Opportunity :=
  os.filter jsPosValue

/-- `withValue.length > 0 ? withValue.reduce((s, o) => s + o.monetaryValue, 0) / withValue.length : 0`. -/
def avgDealSize (os : List Opportunity) : ℚ :=
  if 0 < (withValue os).length then
    ((withValue os).foldl (fun s o => s + o.monetaryValue.getD 0) 0)
      / ((withValue os).length : ℚ)
  else 0

/-- Modelled from the spec's words for comparison: the arithmetic mean of
the monetary values strictly greater than 0, and 0 when there are none. -/
def specDealValues (os : List Opportunity) : List ℚ :=
  (os.map (fun o => o.monetaryValue.getD 0)).filter (fun v => decide (0 < v))

/-- Modelled from the spec's words: mean of the positive values. -/
def specAvgDeal (os : List Opportunity) : ℚ :=
  if specDealValues os = [] then 0
  else (specDealValues os).sum / ((specDealValues os).length : ℚ)

/-! ### Conversation metrics (summary route lines 94-126 and the
conversations route) -/

/-- `c.unreadCount > 0 || c.status === "open"` (`undefined > 0` is `false`). -/
def isOpenConv (c : Conversation) : Bool :=
  decide (0 < c.unreadCount.getD 0) || decide (c.status = some "open")

/-- `conversations.filter(...).length` for the open predicate. -/
def openConversations (cs : List Conversation) : Nat :=
  (cs.filter isOpenConv).length

/-- `conversations.length - openConversations` — derived, never counted
independently. -/
def closedConversations (cs : List Conversation) : Int :=
  (cs.length : Int) - (openConversations cs : Int)

/-- `conversations.filter(c => c.lastMessageType === "TYPE_OUTBOUND").length`. -/
def withReply (cs : List Conversation) : Nat :=
  (cs.filter (fun c => decide (c.lastMessageType = some "TYPE_OUTBOUND"))).length

/-- `conversations.length > 0 ? withReply / conversations.length : 0`. -/
def responseRate (cs : List Conversation) : ℚ :=
  if 0 < cs.length then (withReply cs : ℚ) / (cs.length : ℚ) else 0

/-! ### Pagination (src/lib/ghl.js)

The remote server is modelled as the sequence of responses it returns:
the n-th request of a fetch receives the n-th response of the list, and
any request past the end of the list receives an empty response (the
drained server). The cursor value threaded by the GET strategy selects
the next response but carries no further information in this sequential
model, so it is not reified. Transport failures abort the whole fetch by
raising; the definitions below model the success path. -/

/-- One response of a v2 POST search endpoint: `response[dataKey]`,
`response.meta?.total` and `response.total`. -/
structure PostResponse (α : Type) where
  items : Option (List α)
  metaTotal : Option Nat
  total : Option Nat
deriving DecidableEq

/-- `response[dataKey] || []`. -/
def postItems {α : Type} (r : PostResponse α) : List α :=
  r.items.getD []

/-- `response.meta?.total ?? response.total ?? 0`. -/
def effTotal {α : Type} (r : PostResponse α) : Nat :=
  match r.metaTotal with
  | some t => t
  | none => r.total.getD 0

/-- The `while (hasMore)` loop of `fetchAllPagesPost`, returning the
accumulated items and the number of requests issued. A request against
the drained server returns an empty page, which stops the loop. -/
def postLoop {α : Type} : List (PostResponse α) → List α → List α × Nat
  | [], acc => (acc, 1)
  | r :: rest, acc =>
    let items := postItems r
    let acc2 := acc ++ items
    if effTotal r ≤ acc2.length ∨ items.length = 0 then (acc2, 1)
    else
      let res := postLoop rest acc2
      (res.1, res.2 + 1)

/-- `fetchAllPagesPost` run against the given response sequence:
the drained item list together with the request count. -/
def fetchAllPagesPost {α : Type} (pages : List (PostResponse α)) :
    List α × Nat :=
  postLoop pages []

/-- Sum of the item counts of every page the server holds. -/
def postTotalLen {α : Type} (pages : List (PostResponse α)) : Nat :=
  (pages.map (fun r => (postItems r).length)).sum

/-- One response of the cursor-based GET endpoint:
`response[dataKey]`, `response.meta?.nextPageUrl`, `response.meta?.nextPage`. -/
structure GetResponse (α : Type) where
  items : Option (List α)
  nextPageUrl : Option String
  nextPage : Option Nat
deriving DecidableEq

/-- `response[dataKey] || []`. -/
def getItems {α : Type} (r : GetResponse α) : List α :=
  r.items.getD []

/-- `response.meta?.nextPageUrl || response.meta?.nextPage` as a truthy
test (an empty URL string and a zero page number are falsy). -/
def hasNext {α : Type} (r : GetResponse α) : Bool :=
  (match r.nextPageUrl with
   | some s => decide (s ≠ "")
   | none => false) ||
  (match r.nextPage with
   | some n => decide (n ≠ 0)
   | none => false)

/-- The `while (hasMore)` loop of `fetchAllPagesGet`:
continue while `items.length > 0 && (nextPageUrl || nextPage)`. -/
def getLoop {α : Type} : List (GetResponse α) → List α → List α × Nat
  | [], acc => (acc, 1)
  | r :: rest, acc =>
    let items := getItems r
    let acc2 := acc ++ items
    if 0 < items.length ∧ hasNext r = true then
      let res := getLoop rest acc2
      (res.1, res.2 + 1)
    else (acc2, 1)

/-- `fetchAllPagesGet` run against the given response sequence. -/
def fetchAllPagesGet {α : Type} (pages : List (GetResponse α)) :
    List α × Nat :=
  getLoop pages []

/-- Sum of the item counts of every page the GET server holds. -/
def getTotalLen {α : Type} (pages : List (GetResponse α)) : Nat :=
  (pages.map (fun r => (getItems r).length)).sum

/-! ### The summary composition (src/app/api/summary/route.js) -/

/-- The error body `{error, details}` of a failed route handler. -/
structure ErrorBody where
  error : String
  details : String
deriving DecidableEq

/-- The unified metrics body assembled by the summary route (the
environment-derived meta block is configuration pass-through and is not
part of the metric data). -/
structure SummaryBody where
  contactsTotal : Nat
  newThisMonth : Nat
  srcBreakdown : List (String × Nat)
  recent : List DisplayContact
  oppsTotal : Nat
  totalValue : ℚ
  stageBreakdown : List (String × Nat)
  rateWon : ℚ
  won : Nat
  lost : Nat
  avgDeal : ℚ
  convTotal : Nat
  openCount : Nat
  closedCount : Int
  rateResponse : ℚ
deriving DecidableEq

/-- The aggregation body built once every fetch has succeeded. -/
def buildSummary (parse : String → Option Int) (now : Int)
    (contacts : List Contact) (opportunities : List Opportunity)
    (conversations : List Conversation) (pipelines : List Pipeline) :
    SummaryBody :=
  ⟨contacts.length,
   (contacts.filter (fun c => isWithinDays parse now c.dateAdded 30)).length,
   sourceBreakdown contacts,
   recentContacts parse contacts,
   opportunities.length,
   totalPipelineValue opportunities,
   stageCounts (stageMap pipelines) opportunities,
   winRate opportunities,
   wonCount opportunities,
   lostCount opportunities,
   avgDealSize opportunities,
   conversations.length,
   openConversations conversations,
   closedConversations conversations,
   responseRate conversations⟩

/-- An HTTP result of the route: a JSON body with the default 200
status, or an error body with an explicit status code. -/
inductive ApiResult (β : Type) where
  | ok : β → ApiResult β
  | err : Nat → ErrorBody → ApiResult β

/-- `Promise.all` over the four already-settled fetches: all values, or
the first rejection in argument order. (Temporal rejection order is not
modelled; the claims only depend on some input's failure surfacing.) -/
def promiseAll4 (rc : Except String (List Contact))
    (ro : Except String (List Opportunity))
    (rv : Except String (List Conversation))
    (rp : Except String (List Pipeline)) :
    Except String
      (List Contact × List Opportunity × List Conversation × List Pipeline) :=
  match rc with
  | .error e => .error e
  | .ok a =>
    match ro with
    | .error e => .error e
    | .ok b =>
      match rv with
      | .error e => .error e
      | .ok c =>
        match rp with
        | .error e => .error e
        | .ok d => .ok (a, b, c, d)

/-- Whether a settled fetch is a rejection. -/
def isErr {γ : Type} : Except String γ → Bool
  | .error _ => true
  | .ok _ => false

/-- The summary route handler: `try { await Promise.all(...); ...build... }
catch (error) { 500, {error: "Failed to fetch summary", details: error.message} }`. -/
def summaryGET (parse : String → Option Int) (now : Int)
    (rc : Except String (List Contact))
    (ro : Except String (List Opportunity))
    (rv : Except String (List Conversation))
    (rp : Except String (List Pipeline)) : ApiResult SummaryBody :=
  match promiseAll4 rc ro rv rp with
  | .ok (cs, os, vs, ps) => .ok (buildSummary parse now cs os vs ps)
  | .error e => .err 500 ⟨"Failed to fetch summary", e⟩

/-! ### Concrete instances used to exercise the definitions -/

/-- A concrete date parser mirroring `new Date` / `parseISO` on the
strings appearing in the concrete instances below: the ISO day
2024-06-01 parses to its epoch milliseconds, anything else is an
invalid date. -/
def parse0 : String → Option Int :=
  fun s => if s = "2024-06-01" then some 1717200000000 else none

/-! ### Shared lemmas -/

theorem bump_cons_eq (k' k : String) (v : Nat) (rest : List (String × Nat))
    (h : k' = k) : bump ((k', v) :: rest) k = (k, v + 1) :: rest := by
  simp [bump, objGet, objSet, h]

theorem bump_cons_ne (k' k : String) (v : Nat) (rest : List (String × Nat))
    (h : ¬ k' = k) : bump ((k', v) :: rest) k = (k', v) :: bump rest k := by
  simp [bump, objGet, objSet, h]

theorem getCount_cons (k' g : String) (v : Nat) (rest : List (String × Nat)) :
    getCount ((k', v) :: rest) g = if k' = g then v else getCount rest g := by
  by_cases h : k' = g <;> simp [getCount, objGet, h]

theorem getCount_bump (m : List (String × Nat)) (k g : String) :
    getCount (bump m k) g = getCount m g + (if g = k then 1 else 0) := by
  induction m with
  | nil =>
    by_cases h : k = g
    · subst h; simp [bump, objGet, objSet, getCount]
    · simp [bump, objGet, objSet, getCount, h, Ne.symm h]
  | cons p rest ih =>
    obtain ⟨k', v⟩ := p
    by_cases hk : k' = k
    · subst hk
      rw [bump_cons_eq k' k' v rest rfl, getCount_cons, getCount_cons]
      by_cases hg : k' = g
      · subst hg; simp
      · simp [hg, Ne.symm hg]
    · rw [bump_cons_ne k' k v rest hk, getCount_cons, getCount_cons]
      by_cases hg : k' = g
      · subst hg
        simp [hk]
      · simp [hg, ih]

theorem getCount_foldl_bump (f : Opportunity → String) (g : String) :
    ∀ (os : List Opportunity) (acc : List (String × Nat)),
      getCount (os.foldl (fun a o => bump a (f o)) acc) g =
        getCount acc g + (os.filter (fun o => decide (f o = g))).length := by
  intro os
  induction os with
  | nil => intro acc; simp
  | cons o rest ih =>
    intro acc
    simp only [List.foldl_cons, List.filter_cons]
    rw [ih, getCount_bump]
    by_cases h : f o = g
    · simp [h]; omega
    · simp [h, Ne.symm h]

theorem mem_insertBy {α : Type} (le : α → α → Bool) (x z : α) :
    ∀ (l : List α), z ∈ insertBy le x l ↔ z = x ∨ z ∈ l := by
  intro l
  induction l with
  | nil => simp [insertBy]
  | cons y t ih =>
    simp only [insertBy]
    by_cases h : le x y = true
    · simp [h, List.mem_cons]
    · simp only [if_neg h, List.mem_cons, ih]
      tauto

theorem mem_sortBy {α : Type} (le : α → α → Bool) (z : α) :
    ∀ (l : List α), z ∈ sortBy le l ↔ z ∈ l := by
  intro l
  induction l with
  | nil => simp [sortBy]
  | cons x t ih => simp [sortBy, mem_insertBy, ih, List.mem_cons]

theorem insertBy_congr {α : Type} (le1 le2 : α → α → Bool) (x : α) :
    ∀ (l : List α), (∀ b ∈ l, le1 x b = le2 x b) →
      insertBy le1 x l = insertBy le2 x l := by
  intro l
  induction l with
  | nil => intro _; rfl
  | cons y t ih =>
    intro h
    simp only [insertBy]
    rw [h y (by simp)]
    by_cases hb : le2 x y = true
    · simp [hb]
    · simp only [if_neg hb]
      rw [ih (fun b hb' => h b (by simp [hb']))]

theorem sortBy_congr {α : Type} (le1 le2 : α → α → Bool) :
    ∀ (l : List α), (∀ a ∈ l, ∀ b ∈ l, le1 a b = le2 a b) →
      sortBy le1 l = sortBy le2 l := by
  intro l
  induction l with
  | nil => intro _; rfl
  | cons x t ih =>
    intro h
    simp only [sortBy]
    rw [ih (fun a ha b hb => h a (by simp [ha]) b (by simp [hb]))]
    exact insertBy_congr le1 le2 x _
      (fun b hb => h x (by simp) b (by simp [(mem_sortBy le2 b t).mp hb]))

theorem postLoop_cons {α : Type} (r : PostResponse α)
    (rest : List (PostResponse α)) (acc : List α) :
    postLoop (r :: rest) acc =
      if effTotal r ≤ (acc ++ postItems r).length ∨ (postItems r).length = 0
      then (acc ++ postItems r, 1)
      else ((postLoop rest (acc ++ postItems r)).1,
            (postLoop rest (acc ++ postItems r)).2 + 1) := rfl

theorem postLoop_complete {α : Type} :
    ∀ (pages : List (PostResponse α)) (acc : List α),
      (∀ r ∈ pages, effTotal r = acc.length + postTotalLen pages ∧
        postItems r ≠ []) →
      (postLoop pages acc).1 = acc ++ pages.flatMap postItems := by
  intro pages
  induction pages with
  | nil => intro acc _; simp [postLoop]
  | cons r rest ih =>
    intro acc h
    obtain ⟨ht, hne⟩ := h r (by simp)
    have hlen : 0 < (postItems r).length := List.length_pos.mpr hne
    have htl : postTotalLen (r :: rest) =
        (postItems r).length + postTotalLen rest := by
      simp [postTotalLen]
    rw [postLoop_cons]
    cases rest with
    | nil =>
      have hcond : effTotal r ≤ (acc ++ postItems r).length := by
        rw [ht, htl]
        simp [postTotalLen]
      rw [if_pos (Or.inl hcond)]
      simp
    | cons r2 rest2 =>
      have hne2 : postItems r2 ≠ [] := (h r2 (by simp)).2
      have hlen2 : 0 < (postItems r2).length := List.length_pos.mpr hne2
      have hrestpos : 0 < postTotalLen (r2 :: rest2) := by
        simp only [postTotalLen, List.map_cons, List.sum_cons]
        omega
      have hnotstop : ¬ (effTotal r ≤ (acc ++ postItems r).length ∨
          (postItems r).length = 0) := by
        rw [ht, htl]
        simp only [List.length_append]
        omega
      rw [if_neg hnotstop]
      have := ih (acc ++ postItems r) (by
        intro s hs
        obtain ⟨hts, hnes⟩ := h s (by simp [hs])
        refine ⟨?_, hnes⟩
        rw [hts, htl]
        simp only [List.length_append]
        omega)
      simp only [this, List.flatMap_cons, List.append_assoc]

theorem getLoop_cons {α : Type} (r : GetResponse α)
    (rest : List (GetResponse α)) (acc : List α) :
    getLoop (r :: rest) acc =
      if 0 < (getItems r).length ∧ hasNext r = true
      then ((getLoop rest (acc ++ getItems r)).1,
            (getLoop rest (acc ++ getItems r)).2 + 1)
      else (acc ++ getItems r, 1) := rfl

theorem getLoop_complete {α : Type} :
    ∀ (pages : List (GetResponse α)) (acc : List α),
      (∀ r ∈ pages.dropLast, getItems r ≠ [] ∧ hasNext r = true) →
      (getLoop pages acc).1 = acc ++ pages.flatMap getItems := by
  intro pages
  induction pages with
  | nil => intro acc _; simp [getLoop]
  | cons r rest ih =>
    intro acc h
    rw [getLoop_cons]
    cases rest with
    | nil =>
      by_cases hc : 0 < (getItems r).length ∧ hasNext r = true
      · rw [if_pos hc]
        simp [getLoop]
      · rw [if_neg hc]
        simp
    | cons r2 rest2 =>
      have hr : getItems r ≠ [] ∧ hasNext r = true := by
        apply h r
        simp [List.dropLast_cons₂]
      have hc : 0 < (getItems r).length ∧ hasNext r = true :=
        ⟨List.length_pos.mpr hr.1, hr.2⟩
      rw [if_pos hc]
      have := ih (acc ++ getItems r) (by
        intro s hs
        exact h s (by simp [List.dropLast_cons₂, hs]))
      simp only [this, List.flatMap_cons, List.append_assoc]

theorem foldl_add_val (val : Opportunity → ℚ) :
    ∀ (l : List Opportunity) (c : ℚ),
      l.foldl (fun s o => s + val o) c = c + (l.map val).sum := by
  intro l
  induction l with
  | nil => intro c; simp
  | cons o t ih => intro c; simp [ih, add_assoc]

theorem specDealValues_eq_map_withValue (os : List Opportunity) :
    specDealValues os = (withValue os).map (fun o => o.monetaryValue.getD 0) := by
  induction os with
  | nil => rfl
  | cons o t ih =>
    simp only [specDealValues, withValue, List.map_cons, List.filter_cons] at *
    have : (decide (0 < o.monetaryValue.getD 0)) = jsPosValue o := by
      cases hmv : o.monetaryValue with
      | none => simp [jsPosValue, hmv]
      | some v => simp [jsPosValue, hmv]
    rw [this]
    cases hb : jsPosValue o
    · simpa using ih
    · simpa using ih

theorem winRate_unit (os : List Opportunity) :
    0 ≤ winRate os ∧ winRate os ≤ 1 := by
  rw [winRate]
  split
  · rename_i h
    have hd : (0 : ℚ) < (wonCount os : ℚ) + (lostCount os : ℚ) := by
      have : (0 : ℚ) < ((wonCount os + lostCount os : ℕ) : ℚ) := by
        exact_mod_cast h
      push_cast at this
      linarith
    constructor
    · positivity
    · rw [div_le_one hd]
      have : (0 : ℚ) ≤ (lostCount os : ℚ) := by positivity
      linarith
  · norm_num

theorem responseRate_unit (cs : List Conversation) :
    0 ≤ responseRate cs ∧ responseRate cs ≤ 1 := by
  rw [responseRate]
  split
  · rename_i h
    have hd : (0 : ℚ) < (cs.length : ℚ) := by exact_mod_cast h
    have hle : withReply cs ≤ cs.length := List.length_filter_le _ _
    constructor
    · positivity
    · rw [div_le_one hd]
      exact_mod_cast hle
  · norm_num

theorem closedConversations_nonneg (cs : List Conversation) :
    0 ≤ closedConversations cs := by
  rw [closedConversations]
  have : openConversations cs ≤ cs.length := List.length_filter_le _ _
  omega

/-! ### The claims -/

/-- C1 (amended): both stage breakdowns are exact partition counts of the
opportunity list by resolved stage name; in the summary route an
opportunity whose stage id does not resolve through the pipeline-built
map is counted under the literal name "Unknown", while in the
opportunities route such an opportunity falls back to its raw stage id
(counted under the id string itself) and only a missing or empty id
becomes "Unknown". Neither route reports an error. -/
theorem stageBreakdown_resolution (ps : List Pipeline) (os : List Opportunity)
    (g : String) (sid : Option String)
    (h : stageLookup (stageMap ps) sid = none) :
    getCount (stageCounts (stageMap ps) os) g =
      (os.filter (fun o =>
        decide (resolveStageSummary (stageMap ps) o.pipelineStageId = g))).length
    ∧ getCount (stageCountOpps (stageMap ps) os) g =
      (os.filter (fun o =>
        decide (resolveStageOpps (stageMap ps) o.pipelineStageId = g))).length
    ∧ resolveStageSummary (stageMap ps) sid = "Unknown"
    ∧ resolveStageOpps (stageMap ps) sid = rawStageFallback sid := by
  refine ⟨?_, ?_, ?_, ?_⟩
  · have := getCount_foldl_bump
      (fun o => resolveStageSummary (stageMap ps) o.pipelineStageId) g os []
    simpa [stageCounts, getCount, objGet] using this
  · have := getCount_foldl_bump
      (fun o => resolveStageOpps (stageMap ps) o.pipelineStageId) g os []
    simpa [stageCountOpps, getCount, objGet] using this
  · simp [resolveStageSummary, h]
  · simp [resolveStageOpps, h]

/-- C1 counterexample: with no pipelines, an opportunity whose stage id
"s1" is not a key of the (empty) stage map is counted by the
opportunities route under the group "s1", not under "Unknown" — refuting
the claim that every unresolved stage id is counted under "Unknown". -/
theorem stageBreakdown_counterexample :
    getCount (stageCountOpps (stageMap [])
      [⟨none, none, none, some "s1"⟩]) "Unknown" = 0
    ∧ getCount (stageCountOpps (stageMap [])
      [⟨none, none, none, some "s1"⟩]) "s1" = 1 := by
  decide

/-- C1 witness: the amended theorem evaluated at one pipeline-less input
with an unresolvable stage id. -/
theorem stageBreakdown_resolution_witness :
    stageLookup (stageMap []) (some "sX") = none
    ∧ (getCount (stageCounts (stageMap []) [⟨none, none, none, some "sX"⟩])
        "Unknown" =
        (([⟨none, none, none, some "sX"⟩] : List Opportunity).filter (fun o =>
          decide (resolveStageSummary (stageMap []) o.pipelineStageId =
            "Unknown"))).length
      ∧ getCount (stageCountOpps (stageMap []) [⟨none, none, none, some "sX"⟩])
          "Unknown" =
        (([⟨none, none, none, some "sX"⟩] : List Opportunity).filter (fun o =>
          decide (resolveStageOpps (stageMap []) o.pipelineStageId =
            "Unknown"))).length
      ∧ resolveStageSummary (stageMap []) (some "sX") = "Unknown"
      ∧ resolveStageOpps (stageMap []) (some "sX") = rawStageFallback (some "sX")) :=
  ⟨by decide,
   stageBreakdown_resolution [] [⟨none, none, none, some "sX"⟩] "Unknown"
     (some "sX") (by decide)⟩

/-- C4: winRate is wonCount/(wonCount+lostCount) over exactly the
opportunities whose status is the string "won" respectively "lost",
exactly 0 when no opportunity is won or lost, and an opportunity in any
other status enters neither count nor the rate. -/
theorem winRate_spec (os : List Opportunity) (o : Opportunity)
    (h1 : o.status ≠ some "won") (h2 : o.status ≠ some "lost") :
    winRate os = (if wonCount os + lostCount os = 0 then 0
      else (wonCount os : ℚ) / ((wonCount os : ℚ) + (lostCount os : ℚ)))
    ∧ wonCount (o :: os) = wonCount os
    ∧ lostCount (o :: os) = lostCount os
    ∧ winRate (o :: os) = winRate os := by
  have hw : wonCount (o :: os) = wonCount os := by
    simp [wonCount, List.filter_cons, h1]
  have hl : lostCount (o :: os) = lostCount os := by
    simp [lostCount, List.filter_cons, h2]
  refine ⟨?_, hw, hl, ?_⟩
  · by_cases h : wonCount os + lostCount os = 0
    · simp [winRate, h]
    · simp [winRate, h, Nat.pos_of_ne_zero h]
  · simp [winRate, hw, hl]

/-- C4 witness: the theorem evaluated on one won opportunity with an
"open" one excluded. -/
theorem winRate_spec_witness :
    winRate [⟨none, some 100, some "won", none⟩] =
      (if wonCount [⟨none, some 100, some "won", none⟩] +
          lostCount [⟨none, some 100, some "won", none⟩] = 0 then 0
        else (wonCount [⟨none, some 100, some "won", none⟩] : ℚ) /
          ((wonCount [⟨none, some 100, some "won", none⟩] : ℚ) +
           (lostCount [⟨none, some 100, some "won", none⟩] : ℚ)))
    ∧ wonCount (⟨none, some 50, some "open", none⟩ ::
        [⟨none, some 100, some "won", none⟩]) =
      wonCount [⟨none, some 100, some "won", none⟩]
    ∧ lostCount (⟨none, some 50, some "open", none⟩ ::
        [⟨none, some 100, some "won", none⟩]) =
      lostCount [⟨none, some 100, some "won", none⟩]
    ∧ winRate (⟨none, some 50, some "open", none⟩ ::
        [⟨none, some 100, some "won", none⟩]) =
      winRate [⟨none, some 100, some "won", none⟩] :=
  winRate_spec [⟨none, some 100, some "won", none⟩]
    ⟨none, some 50, some "open", none⟩ (by decide) (by decide)

/-- C5: avgDealSize equals the arithmetic mean of the monetary values
strictly greater than 0 (a value-level description), is 0 on the empty
list, and an opportunity without a strictly positive value changes
neither the sum nor the count. -/
theorem avgDealSize_spec (os : List Opportunity) (o : Opportunity)
    (h : jsPosValue o = false) :
    avgDealSize os = specAvgDeal os
    ∧ avgDealSize [] = 0
    ∧ avgDealSize (o :: os) = avgDealSize os := by
  have hkey := specDealValues_eq_map_withValue os
  refine ⟨?_, by simp [avgDealSize, withValue], ?_⟩
  · rw [avgDealSize, specAvgDeal, hkey]
    by_cases hw : (withValue os).length = 0
    · have hnil : withValue os = [] := List.length_eq_zero.mp hw
      simp [hnil]
    · have hpos : 0 < (withValue os).length := Nat.pos_of_ne_zero hw
      have hne : (withValue os).map (fun o => o.monetaryValue.getD 0) ≠ [] := by
        simp [List.map_eq_nil_iff]
        exact fun hh => hw (by simp [hh])
      rw [if_pos hpos, if_neg hne]
      rw [foldl_add_val]
      simp
  · have hsame : withValue (o :: os) = withValue os := by
      simp [withValue, List.filter_cons, h]
    simp [avgDealSize, hsame]

/-- C5 witness: the theorem evaluated on the spec's scenario — values
100, 0 and an open 50, with a zero-valued opportunity excluded. -/
theorem avgDealSize_spec_witness :
    avgDealSize [⟨none, some 100, some "won", none⟩,
      ⟨none, some 50, some "open", none⟩] =
      specAvgDeal [⟨none, some 100, some "won", none⟩,
        ⟨none, some 50, some "open", none⟩]
    ∧ avgDealSize [] = 0
    ∧ avgDealSize (⟨none, some 0, some "lost", none⟩ ::
        [⟨none, some 100, some "won", none⟩,
         ⟨none, some 50, some "open", none⟩]) =
      avgDealSize [⟨none, some 100, some "won", none⟩,
        ⟨none, some 50, some "open", none⟩] :=
  avgDealSize_spec
    [⟨none, some 100, some "won", none⟩, ⟨none, some 50, some "open", none⟩]
    ⟨none, some 0, some "lost", none⟩ (by decide)

/-- C6: isWithinDays is true exactly when the timestamp is present and
parses to an instant strictly later than now minus N days; an absent or
unparseable timestamp yields false (fail closed), and the function is
total, so no error is raised. Stated for any parser sending the empty
string to an invalid date, as the real date parsers do. -/
theorem isWithinDays_spec (parse : String → Option Int) (now : Int)
    (days : Nat) (ts : Option String) (h : parse "" = none) :
    isWithinDays parse now ts days = true ↔
      ∃ s d, ts = some s ∧ parse s = some d ∧
        now - (days : Int) * 86400000 < d := by
  cases ts with
  | none => simp [isWithinDays]
  | some s =>
    by_cases hs : s = ""
    · subst hs
      simp [isWithinDays, h]
    · simp only [isWithinDays, if_neg hs]
      cases hp : parse s with
      | none => simp [hp]
      | some d => simp [hp, decide_eq_true_eq]

/-- C6 witness: a timestamp 14 days old passes a 30-day window under the
concrete parser. -/
theorem isWithinDays_spec_witness :
    parse0 "" = none
    ∧ (isWithinDays parse0 1718409600000 (some "2024-06-01") 30 = true ↔
        ∃ s d, (some "2024-06-01" : Option String) = some s ∧
          parse0 s = some d ∧
          1718409600000 - (30 : Int) * 86400000 < d) :=
  ⟨by decide, isWithinDays_spec parse0 1718409600000 30 (some "2024-06-01")
    (by decide)⟩

/-- C7: a conversation is counted open exactly when its unread count is
positive or its status is the string "open"; the closed count is the
total minus the open count (derived, never counted independently), so
open plus closed equals the total for every input; the open count never
exceeds the total. -/
theorem conversations_open_closed (cs : List Conversation) (c : Conversation) :
    (isOpenConv c = true ↔ 0 < c.unreadCount.getD 0 ∨ c.status = some "open")
    ∧ openConversations cs = (cs.filter isOpenConv).length
    ∧ closedConversations cs =
        (cs.length : Int) - (openConversations cs : Int)
    ∧ (openConversations cs : Int) + closedConversations cs = (cs.length : Int)
    ∧ openConversations cs ≤ cs.length := by
  refine ⟨?_, rfl, rfl, ?_, ?_⟩
  · simp [isOpenConv, Bool.or_eq_true, decide_eq_true_eq]
  · rw [closedConversations]; ring
  · exact List.length_filter_le _ _

/-- C8: a Page-POST fetch whose first response reports total 0 with an
empty item list issues exactly one request and returns the empty list,
and a Cursor-GET fetch whose first response carries no next-page signal
issues exactly one request and returns exactly that page's items,
whatever their number. -/
theorem pagination_first_page {α β : Type} (r : PostResponse α)
    (rest : List (PostResponse α)) (gr : GetResponse β)
    (grest : List (GetResponse β))
    (h1 : postItems r = []) (h2 : effTotal r = 0) (h3 : hasNext gr = false) :
    fetchAllPagesPost (r :: rest) = ([], 1)
    ∧ fetchAllPagesGet (gr :: grest) = (getItems gr, 1) := by
  constructor
  · rw [fetchAllPagesPost, postLoop_cons]
    simp [h1, h2]
  · rw [fetchAllPagesGet, getLoop_cons]
    simp [h3]

/-- C8 witness: an empty POST first page with total 0, and a GET first
page of two items with no next-page signal. -/
theorem pagination_first_page_witness :
    postItems (⟨some [], some 0, none⟩ : PostResponse Nat) = []
    ∧ effTotal (⟨some [], some 0, none⟩ : PostResponse Nat) = 0
    ∧ hasNext (⟨some [5, 7], none, none⟩ : GetResponse Nat) = false
    ∧ (fetchAllPagesPost [(⟨some [], some 0, none⟩ : PostResponse Nat)] = ([], 1)
      ∧ fetchAllPagesGet [(⟨some [5, 7], none, none⟩ : GetResponse Nat)] =
        (getItems (⟨some [5, 7], none, none⟩ : GetResponse Nat), 1)) :=
  ⟨by decide, by decide, by decide,
   pagination_first_page (⟨some [], some 0, none⟩ : PostResponse Nat) []
     (⟨some [5, 7], none, none⟩ : GetResponse Nat) []
     (by decide) (by decide) (by decide)⟩

/-- C2 (amended): both fetchers return the full concatenation of every
page's items, in server order, whenever the server's signals are
consistent — every POST response reports the true total item count and
every page is non-empty, and every GET response before the last carries
items and a next-page signal. (With an under-reported or missing POST
total the loop's infinite-loop guard stops early and a prefix is
returned as a success; see the counterexample.) -/
theorem fetchAllPages_complete {α β : Type} (pages : List (PostResponse α))
    (gpages : List (GetResponse β))
    (hp : ∀ r ∈ pages, effTotal r = postTotalLen pages ∧ postItems r ≠ [])
    (hg : ∀ r ∈ gpages.dropLast, getItems r ≠ [] ∧ hasNext r = true) :
    (fetchAllPagesPost pages).1 = pages.flatMap postItems
    ∧ (fetchAllPagesGet gpages).1 = gpages.flatMap getItems := by
  constructor
  · have := postLoop_complete pages [] (by simpa using hp)
    simpa [fetchAllPagesPost] using this
  · have := getLoop_complete gpages [] hg
    simpa [fetchAllPagesGet] using this

/-- C2 counterexample: a server holding two non-empty pages but
reporting no total (the code defaults a missing total to 0) receives one
request, and the fetch returns only the first page — a strict prefix of
the records the server holds — as a success, refuting the claim that a
successful fetch is never partial. -/
theorem fetchAllPages_counterexample :
    (fetchAllPagesPost ([⟨some [1], none, none⟩, ⟨some [2], none, none⟩] :
      List (PostResponse Nat))).1 = [1]
    ∧ (([⟨some [1], none, none⟩, ⟨some [2], none, none⟩] :
        List (PostResponse Nat)).flatMap postItems = [1, 2])
    ∧ (fetchAllPagesPost ([⟨some [1], none, none⟩, ⟨some [2], none, none⟩] :
        List (PostResponse Nat))).1 ≠
      ([⟨some [1], none, none⟩, ⟨some [2], none, none⟩] :
        List (PostResponse Nat)).flatMap postItems := by
  refine ⟨by decide, by decide, by decide⟩

/-- C2 witness: a consistent two-page POST server (total 3 on every
page) and a two-page GET server with a next-page token drain fully. -/
theorem fetchAllPages_complete_witness :
    (∀ r ∈ ([⟨some [1, 2], some 3, none⟩, ⟨some [3], some 3, none⟩] :
        List (PostResponse Nat)),
      effTotal r = postTotalLen ([⟨some [1, 2], some 3, none⟩,
        ⟨some [3], some 3, none⟩] : List (PostResponse Nat))
      ∧ postItems r ≠ [])
    ∧ (∀ r ∈ (([⟨some [4], some "next", none⟩, ⟨some [5], none, none⟩] :
        List (GetResponse Nat)).dropLast),
      getItems r ≠ [] ∧ hasNext r = true)
    ∧ ((fetchAllPagesPost ([⟨some [1, 2], some 3, none⟩,
          ⟨some [3], some 3, none⟩] : List (PostResponse Nat))).1 =
        ([⟨some [1, 2], some 3, none⟩, ⟨some [3], some 3, none⟩] :
          List (PostResponse Nat)).flatMap postItems
      ∧ (fetchAllPagesGet ([⟨some [4], some "next", none⟩,
          ⟨some [5], none, none⟩] : List (GetResponse Nat))).1 =
        ([⟨some [4], some "next", none⟩, ⟨some [5], none, none⟩] :
          List (GetResponse Nat)).flatMap getItems) :=
  ⟨by decide, by decide,
   fetchAllPages_complete
     ([⟨some [1, 2], some 3, none⟩, ⟨some [3], some 3, none⟩] :
       List (PostResponse Nat))
     ([⟨some [4], some "next", none⟩, ⟨some [5], none, none⟩] :
       List (GetResponse Nat))
     (by decide) (by decide)⟩

/-- C3 (amended): for every contact list whose dateAdded values all
parse, the recent-contacts projection equals: stable sort descending by
dateAdded, take the first 10, project with the placeholder
substitutions (missing name → "Unknown", missing email/phone → "N/A",
missing source → "Unknown"). When a date does not parse the comparator
evaluates to NaN and the sort leaves such a pair in its current
relative order, so an unparseable date is not ordered as earliest; see
the counterexample. -/
theorem recentContacts_spec (parse : String → Option Int) (cs : List Contact)
    (c : Contact)
    (h : ∀ x ∈ cs, (dateMs parse x).isSome = true)
    (h1 : c.email = none) (h2 : c.phone = none) (h3 : c.source = none)
    (h4 : c.firstName = none) (h5 : c.lastName = none) :
    recentContacts parse cs = specRecentContacts parse cs
    ∧ (projectContact c).email = "N/A"
    ∧ (projectContact c).phone = "N/A"
    ∧ (projectContact c).source = "Unknown"
    ∧ (projectContact c).name = "Unknown" := by
  refine ⟨?_, ?_, ?_, ?_, ?_⟩
  · rw [recentContacts, specRecentContacts,
      sortBy_congr (jsLeDesc parse) (specLeDesc parse) cs ?_]
    intro a ha b hb
    obtain ⟨da, hda⟩ := Option.isSome_iff_exists.mp (h a ha)
    obtain ⟨db, hdb⟩ := Option.isSome_iff_exists.mp (h b hb)
    simp [jsLeDesc, specLeDesc, cmpDateDesc, hda, hdb, sub_nonpos]
  · simp [projectContact, jsOrPlaceholder, h1]
  · simp [projectContact, jsOrPlaceholder, h2]
  · simp [projectContact, jsOrPlaceholder, h3]
  · simp only [projectContact, h4, h5]
    decide

/-- C3 counterexample: a contact with an unparseable date listed before
a newer parseable one keeps its first position through the NaN
comparator, so the code's projection differs from the spec's
"unparseable sorts as earliest (therefore last)" ordering. -/
theorem recentContacts_counterexample :
    recentContacts parse0
      [⟨some "c1", some "Ann", none, none, none, none, some "not-a-date", none⟩,
       ⟨some "c2", some "Bob", none, none, none, none, some "2024-06-01", none⟩]
    ≠ specRecentContacts parse0
      [⟨some "c1", some "Ann", none, none, none, none, some "not-a-date", none⟩,
       ⟨some "c2", some "Bob", none, none, none, none, some "2024-06-01", none⟩] := by
  decide

/-- C3 witness: the amended theorem on a two-contact list whose dates
both parse, with a fully empty contact for the placeholder clauses. -/
theorem recentContacts_spec_witness :
    (∀ x ∈ ([⟨some "c2", some "Bob", none, none, none, none,
        some "2024-06-01", none⟩] : List Contact),
      (dateMs parse0 x).isSome = true)
    ∧ (recentContacts parse0 [⟨some "c2", some "Bob", none, none, none, none,
          some "2024-06-01", none⟩] =
        specRecentContacts parse0 [⟨some "c2", some "Bob", none, none, none,
          none, some "2024-06-01", none⟩]
      ∧ (projectContact ⟨none, none, none, none, none, none, none, none⟩).email
          = "N/A"
      ∧ (projectContact ⟨none, none, none, none, none, none, none, none⟩).phone
          = "N/A"
      ∧ (projectContact ⟨none, none, none, none, none, none, none, none⟩).source
          = "Unknown"
      ∧ (projectContact ⟨none, none, none, none, none, none, none, none⟩).name
          = "Unknown") :=
  ⟨by decide,
   recentContacts_spec parse0
     [⟨some "c2", some "Bob", none, none, none, none, some "2024-06-01", none⟩]
     ⟨none, none, none, none, none, none, none, none⟩
     (by decide) rfl rfl rfl rfl rfl⟩

/-- C9: whenever any one of the four fetches rejects, the summary route
returns a single error response of shape (error, details) with status
500 — the details string being one of the rejected fetches' messages —
and returns no summary body at all, so no partial metric data survives. -/
theorem summaryGET_error (parse : String → Option Int) (now : Int)
    (rc : Except String (List Contact)) (ro : Except String (List Opportunity))
    (rv : Except String (List Conversation)) (rp : Except String (List Pipeline))
    (h : isErr rc = true ∨ isErr ro = true ∨ isErr rv = true ∨ isErr rp = true) :
    ∃ e, summaryGET parse now rc ro rv rp =
        .err 500 ⟨"Failed to fetch summary", e⟩
      ∧ (rc = .error e ∨ ro = .error e ∨ rv = .error e ∨ rp = .error e)
      ∧ ∀ b, summaryGET parse now rc ro rv rp ≠ .ok b := by
  cases rc with
  | error e =>
    exact ⟨e, rfl, Or.inl rfl, fun b hb => by exact nomatch hb⟩
  | ok a =>
    cases ro with
    | error e =>
      exact ⟨e, rfl, Or.inr (Or.inl rfl), fun b hb => by exact nomatch hb⟩
    | ok b =>
      cases rv with
      | error e =>
        exact ⟨e, rfl, Or.inr (Or.inr (Or.inl rfl)),
          fun b hb => by exact nomatch hb⟩
      | ok c =>
        cases rp with
        | error e =>
          exact ⟨e, rfl, Or.inr (Or.inr (Or.inr rfl)),
            fun b hb => by exact nomatch hb⟩
        | ok d => simp [isErr] at h

/-- C9 witness: a rejected conversations fetch fails the whole summary
with the 500 error shape even though the three sibling fetches
succeeded. -/
theorem summaryGET_error_witness :
    (isErr (.ok [] : Except String (List Contact)) = true
      ∨ isErr (.ok [] : Except String (List Opportunity)) = true
      ∨ isErr (.error "boom" : Except String (List Conversation)) = true
      ∨ isErr (.ok [] : Except String (List Pipeline)) = true)
    ∧ ∃ e, summaryGET parse0 0 (.ok []) (.ok []) (.error "boom") (.ok []) =
        .err 500 ⟨"Failed to fetch summary", e⟩
      ∧ ((.ok [] : Except String (List Contact)) = .error e
        ∨ (.ok [] : Except String (List Opportunity)) = .error e
        ∨ (.error "boom" : Except String (List Conversation)) = .error e
        ∨ (.ok [] : Except String (List Pipeline)) = .error e)
      ∧ ∀ b, summaryGET parse0 0 (.ok []) (.ok []) (.error "boom") (.ok [])
          ≠ .ok b :=
  ⟨by decide,
   summaryGET_error parse0 0 (.ok []) (.ok []) (.error "boom") (.ok [])
     (by decide)⟩

/-- C10: for all input lists — including empty ones, where the rates
fall back to their explicit zero-denominator value — every count field
of the summary body is non-negative, every stage and source breakdown
value is non-negative, the derived closed count is non-negative, and
both rate fields lie in the closed interval from 0 to 1. -/
theorem metrics_bounds (parse : String → Option Int) (now : Int)
    (cs : List Contact) (os : List Opportunity) (vs : List Conversation)
    (ps : List Pipeline) :
    0 ≤ ((buildSummary parse now cs os vs ps).contactsTotal : Int)
    ∧ 0 ≤ ((buildSummary parse now cs os vs ps).newThisMonth : Int)
    ∧ (∀ p ∈ (buildSummary parse now cs os vs ps).srcBreakdown,
        0 ≤ (p.2 : Int))
    ∧ 0 ≤ ((buildSummary parse now cs os vs ps).oppsTotal : Int)
    ∧ 0 ≤ ((buildSummary parse now cs os vs ps).won : Int)
    ∧ 0 ≤ ((buildSummary parse now cs os vs ps).lost : Int)
    ∧ (∀ q ∈ (buildSummary parse now cs os vs ps).stageBreakdown,
        0 ≤ (q.2 : Int))
    ∧ 0 ≤ ((buildSummary parse now cs os vs ps).convTotal : Int)
    ∧ 0 ≤ ((buildSummary parse now cs os vs ps).openCount : Int)
    ∧ 0 ≤ (buildSummary parse now cs os vs ps).closedCount
    ∧ 0 ≤ (buildSummary parse now cs os vs ps).rateWon
    ∧ (buildSummary parse now cs os vs ps).rateWon ≤ 1
    ∧ 0 ≤ (buildSummary parse now cs os vs ps).rateResponse
    ∧ (buildSummary parse now cs os vs ps).rateResponse ≤ 1 := by
  refine ⟨by positivity, by positivity, fun p _ => by positivity,
    by positivity, by positivity, by positivity, fun q _ => by positivity,
    by positivity, by positivity, ?_, ?_, ?_, ?_, ?_⟩
  · exact closedConversations_nonneg vs
  · exact (winRate_unit os).1
  · exact (winRate_unit os).2
  · exact (responseRate_unit vs).1
  · exact (responseRate_unit vs).2

/-- C10 witness: the bounds instantiated at the all-empty input, the
zero-denominator edge case where every breakdown is empty and both
rates take their fallback value 0. -/
theorem metrics_bounds_witness :
    0 ≤ ((buildSummary parse0 0 [] [] [] []).contactsTotal : Int)
    ∧ 0 ≤ ((buildSummary parse0 0 [] [] [] []).newThisMonth : Int)
    ∧ (∀ p ∈ (buildSummary parse0 0 [] [] [] []).srcBreakdown,
        0 ≤ (p.2 : Int))
    ∧ 0 ≤ ((buildSummary parse0 0 [] [] [] []).oppsTotal : Int)
    ∧ 0 ≤ ((buildSummary parse0 0 [] [] [] []).won : Int)
    ∧ 0 ≤ ((buildSummary parse0 0 [] [] [] []).lost : Int)
    ∧ (∀ q ∈ (buildSummary parse0 0 [] [] [] []).stageBreakdown,
        0 ≤ (q.2 : Int))
    ∧ 0 ≤ ((buildSummary parse0 0 [] [] [] []).convTotal : Int)
    ∧ 0 ≤ ((buildSummary parse0 0 [] [] [] []).openCount : Int)
    ∧ 0 ≤ (buildSummary parse0 0 [] [] [] []).closedCount
    ∧ 0 ≤ (buildSummary parse0 0 [] [] [] []).rateWon
    ∧ (buildSummary parse0 0 [] [] [] []).rateWon ≤ 1
    ∧ 0 ≤ (buildSummary parse0 0 [] [] [] []).rateResponse
    ∧ (buildSummary parse0 0 [] [] [] []).rateResponse ≤ 1 :=
  metrics_bounds parse0 0 [] [] [] []

end GHL
